import Mathlib

/-
  Verification of the content-generation service in `main.py`.

  The service is a small web application with a pure generator function
  `generate_content` and a request handler `generate_endpoint`, plus a
  diagnostic endpoint `test_database`.  We embed these shallowly:
  Python strings become Lean `String`, Python dicts (whose keys are the
  four subtopic labels, pairwise distinct for every base) become
  association lists in insertion order, Python `str.strip()` becomes
  `pyStrip`, and HTTP outcomes become `Except`.
-/

namespace Main

/-- Whitespace characters removed by Python `str.strip()` (ASCII part:
space, tab, newline, carriage return, vertical tab, form feed). -/
def pyIsSpace (c : Char) : Bool :=
  c = ' ' || c = '\t' || c = '\n' || c = '\r' || c = '\x0b' || c = '\x0c'

/-- Strip leading and trailing whitespace from a character list,
as Python `str.strip()` does. -/
def stripList (l : List Char) : List Char :=
  (((l.dropWhile pyIsSpace).reverse).dropWhile pyIsSpace).reverse

/-- Model of Python `topic.strip()`. -/
def pyStrip (s : String) : String :=
  ⟨stripList s.data⟩

/-- Model of Python `s[:n]` on a string (first `n` characters). -/
def strTake (s : String) (n : Nat) : String :=
  ⟨s.data.take n⟩

/-- A quiz item: question, answer options, index of the correct option.
Mirrors the `QuizItem` pydantic model in `main.py`. -/
structure QuizItem where
  q : String
  options : List String
  answer : Nat
deriving DecidableEq, Repr

/-- The result structure returned by `generate_content`.  The Python dicts
are represented as association lists in insertion order; their keys (the
subtopic labels) are pairwise distinct for every base, so this is faithful. -/
structure GenerateResult where
  base : String
  subtopics : List String
  explanations : List (String × String)
  examples : List (String × List String)
  quizzes : List (String × List QuizItem)
deriving DecidableEq, Repr

/-- Model of `generate_content` from `main.py` (lines 36-175).
`topic.strip() or "Introduction to Learning"` is the stripped topic when
non-empty and the fallback literal otherwise. -/
def generate_content (topic : String) : GenerateResult :=
  let stripped := pyStrip topic
  let base := if stripped = "" then "Introduction to Learning" else stripped
  let s0 := "Foundations of " ++ base
  let s1 := "Core Concepts in " ++ base
  let s2 := "Applying " ++ base
  let s3 := "Quick Review & Pitfalls"
  { base := base
    subtopics := [s0, s1, s2, s3]
    explanations :=
      [ (s0, "Start with the fundamentals of " ++ base ++ ". Clarify definitions, the problem " ++ base ++ " tries to solve, and key terminology.")
      , (s1, "Dive into the main building blocks of " ++ base ++ ". Understand how ideas connect and compare trade-offs.")
      , (s2, "Practice using " ++ base ++ " in realistic scenarios. Work through step-by-step reasoning and examples.")
      , (s3, "Summarize what you\u0027ve learned about " ++ base ++ ", highlight common mistakes, and create a concise review list.") ]
    examples :=
      [ (s0, [ "Define " ++ base ++ " in one sentence."
             , "List 3 real-world applications where " ++ base ++ " is useful."
             , "Explain why " ++ base ++ " matters for learners at your level." ])
      , (s1, [ "Describe a core concept of " ++ base ++ " and give a short example."
             , "Contrast two approaches used in " ++ base ++ " and when to pick each."
             , "What assumptions are common when studying " ++ base ++ "?" ])
      , (s2, [ "Walk through a worked example applying " ++ base ++ " step by step."
             , "Identify edge cases that can break naive use of " ++ base ++ "."
             , "Create a small challenge exercise involving " ++ base ++ "." ])
      , (s3, [ "Write a 5-bullet summary of " ++ base ++ "."
             , "Name two common pitfalls and how to avoid them in " ++ base ++ "."
             , "Draft 3 flashcards to remember key ideas in " ++ base ++ "." ]) ]
    quizzes :=
      [ (s0, [ { q := "Which best describes the aim of " ++ base ++ "?"
               , options := [ "It replaces all prior knowledge"
                            , "It provides a framework of key ideas"
                            , "It is only a set of formulas"
                            , "It has no practical use" ]
               , answer := 1 }
             , { q := "A good first step when learning " ++ base ++ " is to:"
               , options := [ "Memorize random facts"
                            , "Skim advanced papers"
                            , "Clarify definitions and goals"
                            , "Skip to hard problems" ]
               , answer := 2 } ])
      , (s1, [ { q := "Core concepts in " ++ base ++ " should be:"
               , options := [ "Learned in isolation only"
                            , "Connected to each other"
                            , "Ignored if difficult"
                            , "Left for later" ]
               , answer := 1 }
             , { q := "Trade-offs in " ++ base ++ " help you:"
               , options := [ "Pick approaches that fit the context"
                            , "Avoid making choices"
                            , "Always choose the most complex method"
                            , "Ignore constraints" ]
               , answer := 0 } ])
      , (s2, [ { q := "When applying " ++ base ++ ", start by:"
               , options := [ "Writing code immediately"
                            , "Understanding the problem and constraints"
                            , "Skipping examples"
                            , "Only reading theory" ]
               , answer := 1 }
             , { q := "Edge cases are important because they:"
               , options := [ "Never occur"
                            , "Make solutions more entertaining"
                            , "Reveal hidden assumptions"
                            , "Reduce clarity" ]
               , answer := 2 } ])
      , (s3, [ { q := "A concise review of " ++ base ++ " should:"
               , options := [ "List key points and pitfalls"
                            , "Introduce unrelated topics"
                            , "Avoid structure"
                            , "Be overly long" ]
               , answer := 0 }
             , { q := "Flashcards for " ++ base ++ " work best when they:"
               , options := [ "Ask clear, focused questions"
                            , "Contain essays"
                            , "Use only images"
                            , "Avoid spaced repetition" ]
               , answer := 0 } ]) ] }

/-- An HTTP error outcome, as raised by `HTTPException` in `main.py`. -/
structure HttpError where
  status : Nat
  detail : String
deriving DecidableEq, Repr

/-- Model of the handler `generate_endpoint` (`main.py` lines 188-194).
`(payload.topic or "").strip()` is the identity followed by strip on a
string payload (`s or ""` returns `s` unless `s` is empty, in which case
it returns `""`), so it equals `pyStrip topic`. -/
def generate_endpoint (topic : String) : Except HttpError GenerateResult :=
  let t := pyStrip topic
  if t = "" then .error ⟨400, "Topic is required"⟩
  else .ok (generate_content t)

/-- The possible outcomes of `from database import db` and of the
subsequent use of `db` in `test_database`.  The `database` module is not
part of this repository (it is an optional external integration), so its
behaviour is a parameter of the model.
* `importErr`: the import raises `ImportError`;
* `otherErr msg`: the import (or a later `db` access) raises another
  exception with message `msg`;
* `noneDb`: the module imports and `db` is `None`;
* `available nameAttr listResult`: `db` is a live object, `nameAttr` is
  `some n` when `db` has a `name` attribute with value `n`, and
  `listResult` is the outcome of `db.list_collection_names()` (either the
  collection list or an exception message). -/
instance : DecidableEq (Except String (List String)) := fun x y =>
  match x, y with
  | .ok a, .ok b =>
      if h : a = b then .isTrue (by rw [h]) else .isFalse (by simp [h])
  | .error a, .error b =>
      if h : a = b then .isTrue (by rw [h]) else .isFalse (by simp [h])
  | .ok _, .error _ => .isFalse (by simp)
  | .error _, .ok _ => .isFalse (by simp)

inductive DbModule where
  | importErr : DbModule
  | otherErr : String → DbModule
  | noneDb : DbModule
  | available : Option String → Except String (List String) → DbModule
deriving DecidableEq, Repr

/-- The environment `test_database` runs in: the state of the optional
database module and whether the two environment variables are set. -/
structure TestEnv where
  dbModule : DbModule
  databaseUrlSet : Bool
  databaseNameSet : Bool
deriving DecidableEq, Repr

/-- The response body built by `test_database`.  The `database_url` and
`database_name` fields start as Python `None` and are later assigned
strings, hence `Option String`. -/
structure TestResponse where
  backend : String
  database : String
  database_url : Option String
  database_name : Option String
  connection_status : String
  collections : List String
deriving DecidableEq, Repr

/-- Model of the `test_database` handler (`main.py` lines 197-239).
Returns the HTTP status paired with the response body; the handler never
raises, so the status is always 200.  Note the final unconditional
overwrite of `database_url` / `database_name` from the environment
variables, exactly as in the source. -/
def test_database (env : TestEnv) : Nat × TestResponse :=
  let response : TestResponse :=
    { backend := "✅ Running"
      database := "❌ Not Available"
      database_url := none
      database_name := none
      connection_status := "Not Connected"
      collections := [] }
  let r1 :=
    match env.dbModule with
    | .importErr =>
        { response with database := "❌ Database module not found (run enable-database first)" }
    | .otherErr msg =>
        { response with database := "❌ Error: " ++ strTake msg 50 }
    | .noneDb =>
        { response with database := "⚠️  Available but not initialized" }
    | .available nameAttr listResult =>
        let r :=
          { response with
              database := "✅ Available"
              database_url := some "✅ Configured"
              database_name := some (match nameAttr with
                | some n => n
                | none => "✅ Connected")
              connection_status := "Connected" }
        match listResult with
        | .ok collections =>
            { r with collections := collections.take 10
                     database := "✅ Connected & Working" }
        | .error msg =>
            { r with database := "⚠️  Connected but Error: " ++ strTake msg 50 }
  let r2 :=
    { r1 with
        database_url := some (if env.databaseUrlSet then "✅ Set" else "❌ Not Set")
        database_name := some (if env.databaseNameSet then "✅ Set" else "❌ Not Set") }
  (200, r2)

/-- `pat` occurs as a contiguous substring of `s`. -/
def strContains (s pat : String) : Prop :=
  pat.data <:+: s.data

instance (s pat : String) : Decidable (strContains s pat) :=
  inferInstanceAs (Decidable (pat.data <:+: s.data))

/- ### Helper lemmas about strings -/

theorem data_append (a b : String) : (a ++ b).data = a.data ++ b.data := rfl

theorem strLen_eq_data_length (s : String) : s.length = s.data.length := rfl

theorem strLen_append (a b : String) : (a ++ b).length = a.length + b.length := by
  show (a.data ++ b.data).length = a.data.length + b.data.length
  exact List.length_append a.data b.data

/-- A string of the form `mid` flanked by `pre` and `suf` contains `mid`. -/
theorem strContains_append₃ (pre mid suf : String) :
    strContains (pre ++ mid ++ suf) mid :=
  ⟨pre.data, suf.data, by simp [data_append, List.append_assoc]⟩

/-- A string of the form `pre ++ mid` contains `mid`. -/
theorem strContains_append₂ (pre mid : String) :
    strContains (pre ++ mid) mid :=
  ⟨pre.data, [], by simp [data_append]⟩

/-- Appending the same string to strings of different lengths gives
different strings. -/
theorem append_ne_of_length_ne (p k b : String) (h : p.length ≠ k.length) :
    p ++ b ≠ k ++ b := by
  intro he
  have h2 := congrArg String.length he
  rw [strLen_append, strLen_append] at h2
  omega

/-- Strings whose first characters differ are different, even after
appending to the first. -/
theorem append_ne_of_head_ne (p k b : String) (c d : Char) (tp tk : List Char)
    (hp : p.data = c :: tp) (hk : k.data = d :: tk) (h : c ≠ d) :
    p ++ b ≠ k := by
  intro he
  have h2 := congrArg String.data he
  rw [data_append, hp, hk] at h2
  simp only [List.cons_append, List.cons.injEq] at h2
  exact h h2.1

/- ### Helper lemmas about `dropWhile` and `pyStrip` -/

theorem dropWhile_dropWhile (p : Char → Bool) (l : List Char) :
    (l.dropWhile p).dropWhile p = l.dropWhile p := by
  induction l with
  | nil => rfl
  | cons a t ih =>
    by_cases h : p a
    · rw [List.dropWhile_cons, if_pos h]; exact ih
    · rw [List.dropWhile_cons, if_neg h, List.dropWhile_cons, if_neg h]

theorem head_dropWhile_false (p : Char → Bool) (l : List Char) (a : Char)
    (t : List Char) (h : l.dropWhile p = a :: t) : p a = false := by
  induction l with
  | nil => simp [List.dropWhile] at h
  | cons b m ih =>
    by_cases hb : p b
    · rw [List.dropWhile_cons, if_pos hb] at h; exact ih h
    · rw [List.dropWhile_cons, if_neg hb] at h
      injection h with h1 h2
      subst h1
      simpa using hb

/-- `dropWhile` keeps a suffix of the list; the dropped part satisfies `p`. -/
theorem dropWhile_decomp (p : Char → Bool) (l : List Char) :
    ∃ s, l = s ++ l.dropWhile p ∧ ∀ x ∈ s, p x := by
  induction l with
  | nil => exact ⟨[], rfl, by simp⟩
  | cons a t ih =>
    by_cases h : p a
    · obtain ⟨s, hs, hall⟩ := ih
      refine ⟨a :: s, ?_, ?_⟩
      · rw [List.dropWhile_cons, if_pos h, List.cons_append]
        exact congrArg (List.cons a) hs
      · intro x hx
        rcases List.mem_cons.mp hx with rfl | hx
        · exact h
        · exact hall x hx
    · exact ⟨[], by rw [List.dropWhile_cons, if_neg h]; rfl, by simp⟩

theorem stripList_key (m : List Char) :
    ((m.dropWhile pyIsSpace).reverse.dropWhile pyIsSpace).reverse.dropWhile pyIsSpace
      = ((m.dropWhile pyIsSpace).reverse.dropWhile pyIsSpace).reverse := by
  cases hc : ((m.dropWhile pyIsSpace).reverse.dropWhile pyIsSpace).reverse with
  | nil => rfl
  | cons a t =>
    obtain ⟨s, hs, -⟩ := dropWhile_decomp pyIsSpace (m.dropWhile pyIsSpace).reverse
    have hu2 : m.dropWhile pyIsSpace
        = ((m.dropWhile pyIsSpace).reverse.dropWhile pyIsSpace).reverse ++ s.reverse := by
      have h3 := congrArg List.reverse hs
      simpa using h3
    have hm : m.dropWhile pyIsSpace = a :: (t ++ s.reverse) := by
      rw [hu2, hc]; rfl
    have ha := head_dropWhile_false pyIsSpace m a (t ++ s.reverse) hm
    rw [List.dropWhile_cons, if_neg (by simp [ha])]

theorem stripList_idem (l : List Char) : stripList (stripList l) = stripList l := by
  unfold stripList
  rw [stripList_key l, List.reverse_reverse, dropWhile_dropWhile]

theorem pyStrip_idem (s : String) : pyStrip (pyStrip s) = pyStrip s := by
  show (⟨stripList (stripList s.data)⟩ : String) = ⟨stripList s.data⟩
  rw [stripList_idem]

/-- The stripped string is empty exactly when every character of the input
is whitespace (in particular, when the input is empty). -/
theorem pyStrip_eq_empty_iff (s : String) :
    pyStrip s = "" ↔ ∀ c ∈ s.data, pyIsSpace c := by
  have hmk : pyStrip s = "" ↔ stripList s.data = [] := by
    constructor
    · intro h; exact congrArg String.data h
    · intro h; show (⟨stripList s.data⟩ : String) = ""; rw [h]
  rw [hmk]
  unfold stripList
  rw [List.reverse_eq_nil_iff, List.dropWhile_eq_nil_iff]
  constructor
  · intro h c hc
    obtain ⟨sp, hs, hall⟩ := dropWhile_decomp pyIsSpace s.data
    rw [hs] at hc
    rcases List.mem_append.mp hc with hc | hc
    · exact hall c hc
    · exact h c (List.mem_reverse.mpr hc)
  · intro h c hc
    obtain ⟨sp, hs, -⟩ := dropWhile_decomp pyIsSpace s.data
    refine h c ?_
    rw [hs]
    exact List.mem_append.mpr (Or.inr (List.mem_reverse.mp hc))

/-- The question text of quiz item `j` of subtopic `i` in the result for
topic `t` (out-of-range indices yield the empty string). -/
def quizQ (t : String) (i j : Nat) : String :=
  (((generate_content t).quizzes.getD i ("", [])).2.getD j ⟨"", [], 0⟩).q

/- ### Claims -/

/-- Claim C1: for every input string `t`, `generate_content t` has base
`pyStrip t` when the stripped topic is non-empty, and the literal
`"Introduction to Learning"` when `t` is empty or all-whitespace. -/
theorem C1_base_fallback (t : String) :
    ((∀ c ∈ t.data, pyIsSpace c) →
      (generate_content t).base = "Introduction to Learning") ∧
    (pyStrip t ≠ "" → (generate_content t).base = pyStrip t) := by
  constructor
  · intro h
    have he : pyStrip t = "" := (pyStrip_eq_empty_iff t).mpr h
    show (if pyStrip t = "" then "Introduction to Learning" else pyStrip t) = _
    rw [if_pos he]
  · intro h
    show (if pyStrip t = "" then "Introduction to Learning" else pyStrip t) = _
    rw [if_neg h]

/-- Witness for C1 at a whitespace-only topic and at a topic with
surrounding whitespace. -/
theorem C1_base_fallback_witness :
    (generate_content "   ").base = "Introduction to Learning" ∧
    (generate_content " Graph Theory ").base = "Graph Theory" := by
  constructor
  · exact (C1_base_fallback "   ").1 (by decide)
  · exact ((C1_base_fallback " Graph Theory ").2 (by decide)).trans (by decide)

/-- Claim C2: the handler of `POST /api/generate` rejects an
empty-after-trim topic with status 400 and message `"Topic is required"`
(never reaching the generator) and otherwise returns exactly the
generator result for the trimmed topic with status 200. -/
theorem C2_endpoint_validation (topic : String) :
    (pyStrip topic = "" →
      generate_endpoint topic = .error ⟨400, "Topic is required"⟩) ∧
    (pyStrip topic ≠ "" →
      generate_endpoint topic = .ok (generate_content (pyStrip topic))) := by
  constructor
  · intro h
    simp [generate_endpoint, h]
  · intro h
    simp [generate_endpoint, h]

/-- Witness for C2 at a whitespace-only topic and a valid topic. -/
theorem C2_endpoint_validation_witness :
    generate_endpoint "  " = .error ⟨400, "Topic is required"⟩ ∧
    generate_endpoint " Math " = .ok (generate_content (pyStrip " Math ")) :=
  ⟨(C2_endpoint_validation "  ").1 (by decide),
   (C2_endpoint_validation " Math ").2 (by decide)⟩

/-- Counterexample to claim C3 as stated: at topic `"Math"`, the fourth
subtopic label `"Quick Review & Pitfalls"` does not contain the base
`"Math"` as a substring, so not every subtopic label contains the base. -/
theorem C3_counterexample :
    ¬ ((generate_content "Math").subtopics.length = 4 ∧
       ∀ s ∈ (generate_content "Math").subtopics,
         strContains s ((generate_content "Math").base)) := by
  decide

/-- Claim C3, amended: the subtopic list has length 4 and each of the
FIRST THREE subtopic labels contains the base as a substring (the fourth
label is the fixed string `"Quick Review & Pitfalls"`). -/
theorem C3_amended_subtopics (t : String) :
    (generate_content t).subtopics.length = 4 ∧
    ∀ i, i < 3 →
      strContains ((generate_content t).subtopics.getD i "")
        ((generate_content t).base) := by
  refine ⟨rfl, ?_⟩
  intro i hi
  interval_cases i
  · exact strContains_append₂ "Foundations of " _
  · exact strContains_append₂ "Core Concepts in " _
  · exact strContains_append₂ "Applying " _

/-- Witness for the amended C3 at topic `"Math"`, index 0. -/
theorem C3_amended_subtopics_witness :
    (generate_content "Math").subtopics.length = 4 ∧
    strContains ((generate_content "Math").subtopics.getD 0 "")
      ((generate_content "Math").base) :=
  ⟨(C3_amended_subtopics "Math").1,
   (C3_amended_subtopics "Math").2 0 (by decide)⟩

/-- Counterexample to claim C4 as stated: the question text of the
subtopic at index 3 does depend on the base (the code substitutes the
base into it), so the base is not substituted "only for subtopics 0-2". -/
theorem C4_counterexample : quizQ "Algebra" 3 0 ≠ quizQ "Biology" 3 0 := by
  decide

/-- Claim C4, amended: quiz option lists and correct-answer indices are
fixed text independent of the base; the base is substituted into the
question text of BOTH questions of subtopics 0, 1 and 3 and of the FIRST
question of subtopic 2, while the second question of subtopic 2 is fixed
text independent of the base. -/
theorem C4_amended_quiz_templates (t u : String) :
    (generate_content t).quizzes.map (fun e => e.2.map fun i => (i.options, i.answer))
      = (generate_content u).quizzes.map (fun e => e.2.map fun i => (i.options, i.answer)) ∧
    quizQ t 2 1 = quizQ u 2 1 ∧
    (∀ i j, i < 4 → j < 2 → ¬(i = 2 ∧ j = 1) →
      strContains (quizQ t i j) ((generate_content t).base)) := by
  refine ⟨rfl, rfl, ?_⟩
  intro i j hi hj hne
  interval_cases i <;> interval_cases j
  · exact strContains_append₃ "Which best describes the aim of " _ "?"
  · exact strContains_append₃ "A good first step when learning " _ " is to:"
  · exact strContains_append₃ "Core concepts in " _ " should be:"
  · exact strContains_append₃ "Trade-offs in " _ " help you:"
  · exact strContains_append₃ "When applying " _ ", start by:"
  · exact absurd ⟨rfl, rfl⟩ hne
  · exact strContains_append₃ "A concise review of " _ " should:"
  · exact strContains_append₃ "Flashcards for " _ " work best when they:"

/-- Witness for the amended C4: concrete topics, substitution visible in
the first question of subtopic 0. -/
theorem C4_amended_quiz_templates_witness :
    strContains (quizQ "Algebra" 0 0) ((generate_content "Algebra").base) :=
  (C4_amended_quiz_templates "Algebra" "Biology").2.2 0 0
    (by decide) (by decide) (by decide)

/-- Claim C5: the four subtopic labels appear in the fixed order
Foundations, Core Concepts, Applying, Quick Review, and are pairwise
distinct (for every topic). -/
theorem C5_subtopics_order_distinct (t : String) :
    (generate_content t).subtopics =
      [ "Foundations of " ++ (generate_content t).base
      , "Core Concepts in " ++ (generate_content t).base
      , "Applying " ++ (generate_content t).base
      , "Quick Review & Pitfalls" ] ∧
    (generate_content t).subtopics.Pairwise (· ≠ ·) := by
  refine ⟨rfl, ?_⟩
  show List.Pairwise (· ≠ ·)
    [ "Foundations of " ++ (generate_content t).base
    , "Core Concepts in " ++ (generate_content t).base
    , "Applying " ++ (generate_content t).base
    , "Quick Review & Pitfalls" ]
  have h01 : "Foundations of " ++ (generate_content t).base
      ≠ "Core Concepts in " ++ (generate_content t).base :=
    append_ne_of_length_ne _ _ _ (by decide)
  have h02 : "Foundations of " ++ (generate_content t).base
      ≠ "Applying " ++ (generate_content t).base :=
    append_ne_of_length_ne _ _ _ (by decide)
  have h12 : "Core Concepts in " ++ (generate_content t).base
      ≠ "Applying " ++ (generate_content t).base :=
    append_ne_of_length_ne _ _ _ (by decide)
  have h03 : "Foundations of " ++ (generate_content t).base
      ≠ "Quick Review & Pitfalls" :=
    append_ne_of_head_ne _ _ _ 'F' 'Q' "oundations of ".data
      "uick Review & Pitfalls".data rfl rfl (by decide)
  have h13 : "Core Concepts in " ++ (generate_content t).base
      ≠ "Quick Review & Pitfalls" :=
    append_ne_of_head_ne _ _ _ 'C' 'Q' "ore Concepts in ".data
      "uick Review & Pitfalls".data rfl rfl (by decide)
  have h23 : "Applying " ++ (generate_content t).base
      ≠ "Quick Review & Pitfalls" :=
    append_ne_of_head_ne _ _ _ 'A' 'Q' "pplying ".data
      "uick Review & Pitfalls".data rfl rfl (by decide)
  refine List.Pairwise.cons ?_ (List.Pairwise.cons ?_ (List.Pairwise.cons ?_ ?_))
  · intro y hy
    rcases List.mem_cons.mp hy with rfl | hy
    · exact h01
    rcases List.mem_cons.mp hy with rfl | hy
    · exact h02
    rcases List.mem_cons.mp hy with rfl | hy
    · exact h03
    exact absurd hy (List.not_mem_nil y)
  · intro y hy
    rcases List.mem_cons.mp hy with rfl | hy
    · exact h12
    rcases List.mem_cons.mp hy with rfl | hy
    · exact h13
    exact absurd hy (List.not_mem_nil y)
  · intro y hy
    rcases List.mem_cons.mp hy with rfl | hy
    · exact h23
    exact absurd hy (List.not_mem_nil y)
  · exact List.pairwise_singleton _ _

/-- Claim C6: the explanation, example and quiz maps are keyed exactly by
the four subtopic labels of the same result (in the same order), every
examples entry holds exactly three strings, and every quizzes entry
holds exactly two quiz items. -/
theorem C6_map_keys_shapes (t : String) :
    (generate_content t).explanations.map Prod.fst = (generate_content t).subtopics ∧
    (generate_content t).examples.map Prod.fst = (generate_content t).subtopics ∧
    (generate_content t).quizzes.map Prod.fst = (generate_content t).subtopics ∧
    (generate_content t).examples.map (fun e => e.2.length) = [3, 3, 3, 3] ∧
    (generate_content t).quizzes.map (fun e => e.2.length) = [2, 2, 2, 2] :=
  ⟨rfl, rfl, rfl, rfl, rfl⟩

/-- Claim C7: every quiz item of every subtopic has exactly four options
and a correct-answer index strictly below 4. -/
theorem C7_quiz_bounds (t : String) :
    ∀ entry ∈ (generate_content t).quizzes, ∀ item ∈ entry.2,
      item.options.length = 4 ∧ item.answer < 4 := by
  intro entry hentry item hitem
  rcases List.mem_cons.mp hentry with rfl | hentry
  · rcases List.mem_cons.mp hitem with rfl | hitem
    · exact ⟨rfl, show 1 < 4 by decide⟩
    rcases List.mem_cons.mp hitem with rfl | hitem
    · exact ⟨rfl, show 2 < 4 by decide⟩
    exact absurd hitem (List.not_mem_nil item)
  rcases List.mem_cons.mp hentry with rfl | hentry
  · rcases List.mem_cons.mp hitem with rfl | hitem
    · exact ⟨rfl, show 1 < 4 by decide⟩
    rcases List.mem_cons.mp hitem with rfl | hitem
    · exact ⟨rfl, show 0 < 4 by decide⟩
    exact absurd hitem (List.not_mem_nil item)
  rcases List.mem_cons.mp hentry with rfl | hentry
  · rcases List.mem_cons.mp hitem with rfl | hitem
    · exact ⟨rfl, show 1 < 4 by decide⟩
    rcases List.mem_cons.mp hitem with rfl | hitem
    · exact ⟨rfl, show 2 < 4 by decide⟩
    exact absurd hitem (List.not_mem_nil item)
  rcases List.mem_cons.mp hentry with rfl | hentry
  · rcases List.mem_cons.mp hitem with rfl | hitem
    · exact ⟨rfl, show 0 < 4 by decide⟩
    rcases List.mem_cons.mp hitem with rfl | hitem
    · exact ⟨rfl, show 0 < 4 by decide⟩
    exact absurd hitem (List.not_mem_nil item)
  exact absurd hentry (List.not_mem_nil entry)

/-- Witness for C7: the first quiz item of the first subtopic at topic
`"Math"`. -/
theorem C7_quiz_bounds_witness :
    (((generate_content "Math").quizzes.getD 0 ("", [])).2.getD 0
        ⟨"", [], 0⟩).options.length = 4 ∧
    (((generate_content "Math").quizzes.getD 0 ("", [])).2.getD 0
        ⟨"", [], 0⟩).answer < 4 :=
  C7_quiz_bounds "Math" ((generate_content "Math").quizzes.getD 0 ("", []))
    (by decide)
    (((generate_content "Math").quizzes.getD 0 ("", [])).2.getD 0 ⟨"", [], 0⟩)
    (by decide)

/-- Claim C8: `generate_content` is a total function of its input (the
embedding is a total Lean function, so it returns a result for every
string without failing), and it is deterministic: equal inputs give
equal results. -/
theorem C8_deterministic (t₁ t₂ : String) (h : t₁ = t₂) :
    generate_content t₁ = generate_content t₂ := by
  rw [h]

/-- Witness for C8 at equal concrete inputs. -/
theorem C8_deterministic_witness :
    generate_content "Math" = generate_content "Math" :=
  C8_deterministic "Math" "Math" rfl

/-- Claim C9: `GET /test` always returns status 200, the reported
collections list has at most 10 entries, a missing database module is
rendered as a fixed status string, and each caught exception message is
embedded truncated to its first 50 characters. -/
theorem C9_test_endpoint_robust (env : TestEnv) :
    (test_database env).1 = 200 ∧
    (test_database env).2.collections.length ≤ 10 ∧
    (env.dbModule = .importErr →
      (test_database env).2.database
        = "❌ Database module not found (run enable-database first)") ∧
    (∀ msg, env.dbModule = .otherErr msg →
      (test_database env).2.database = "❌ Error: " ++ strTake msg 50 ∧
      (strTake msg 50).length ≤ 50) ∧
    (∀ nameAttr msg, env.dbModule = .available nameAttr (.error msg) →
      (test_database env).2.database
          = "⚠️  Connected but Error: " ++ strTake msg 50 ∧
      (strTake msg 50).length ≤ 50) := by
  obtain ⟨dbm, us, ns⟩ := env
  have htake : ∀ msg : String, (strTake msg 50).length ≤ 50 := by
    intro msg
    show (msg.data.take 50).length ≤ 50
    rw [List.length_take]
    exact Nat.min_le_left _ _
  refine ⟨rfl, ?_, ?_, ?_, ?_⟩
  · cases dbm with
    | importErr => simp [test_database]
    | otherErr msg => simp [test_database]
    | noneDb => simp [test_database]
    | available nameAttr lr =>
      cases lr with
      | ok cols =>
        simp only [test_database, List.length_take]
        exact Nat.min_le_left _ _
      | error msg => simp [test_database]
  · intro h
    subst h
    rfl
  · intro msg h
    subst h
    exact ⟨rfl, htake msg⟩
  · intro nameAttr msg h
    subst h
    exact ⟨rfl, htake msg⟩

/-- Witness for C9 at an environment whose import raises a generic
exception with a long message. -/
theorem C9_test_endpoint_robust_witness :
    (test_database ⟨.otherErr "boom", false, true⟩).1 = 200 ∧
    (test_database ⟨.otherErr "boom", false, true⟩).2.database
      = "❌ Error: " ++ strTake "boom" 50 :=
  ⟨(C9_test_endpoint_robust ⟨.otherErr "boom", false, true⟩).1,
   ((C9_test_endpoint_robust ⟨.otherErr "boom", false, true⟩).2.2.2.1
      "boom" rfl).1⟩

/-- Claim C10: `generate_content` is invariant under pre-trimming the
topic, so the handler stripping the topic before the call never changes
the generated result. -/
theorem C10_pretrim_invariant (t : String) :
    generate_content t = generate_content (pyStrip t) := by
  unfold generate_content
  rw [pyStrip_idem]

end Main
